import Mathlib

/-!
Shallow embedding of the frame synchronization and decoding subsystem of
`iceberg-twist` (`src/iceberg-twist/main.py`), together with proofs about
the properties its specification claims.

Bytes are modelled as natural numbers (each byte value below 256); a byte
buffer is a `List Nat` in stream order.  Native byte order of the
transmitting device is modelled as little-endian throughout (`struct`
format codes `i` and `h` on the capture platform).  Python `struct`
failures (`struct.error`) are modelled by the `StructError` sum, and file
system effects by an explicit `FileSystem` state with an error sum.
-/

namespace IcebergTwist

/-- Delimiter byte `0x3A` used by the entry point when splitting captures. -/
def DELIM : Nat := 0x3A

/-- Python `struct.error` outcomes that the source can raise:
`tooShort` is the `unpack_from requires a buffer of at least N bytes`
failure of `struct.unpack_from`, `notMultiple` is the
`iterative unpacking requires a buffer of a multiple of 2 bytes` failure of
`struct.iter_unpack`. -/
inductive StructError where
  | tooShort : StructError
  | notMultiple : StructError
deriving DecidableEq, Repr

instance {ε α : Type} [DecidableEq ε] [DecidableEq α] : DecidableEq (Except ε α)
  | .ok a, .ok b =>
    if h : a = b then .isTrue (congrArg Except.ok h)
    else .isFalse (fun he => h (by cases he; rfl))
  | .error a, .error b =>
    if h : a = b then .isTrue (congrArg Except.error h)
    else .isFalse (fun he => h (by cases he; rfl))
  | .ok _, .error _ => .isFalse (fun he => by cases he)
  | .error _, .ok _ => .isFalse (fun he => by cases he)

/-- Little-endian signed 16-bit value of two bytes (Python `struct` code `h`). -/
def toInt16 (lo hi : Nat) : Int :=
  let u := lo + 256 * hi
  if u < 32768 then (u : Int) else (u : Int) - 65536

/-- Little-endian signed 32-bit value of four bytes (Python `struct` code `i`). -/
def toInt32 (b0 b1 b2 b3 : Nat) : Int :=
  let u := b0 + 256 * b1 + 65536 * b2 + 16777216 * b3
  if u < 2147483648 then (u : Int) else (u : Int) - 4294967296

/-- Embedding of `get_timestamp`: `struct.unpack_from('i', byte_array, 6)`.
It succeeds with the native (little-endian) signed 32-bit integer held in
bytes 6..9 when at least four bytes exist from offset 6 on, and raises
`struct.error` (buffer too short) otherwise. -/
def get_timestamp (byte_array : List Nat) : Except StructError Int :=
  match byte_array.drop 6 with
  | b0 :: b1 :: b2 :: b3 :: _ => .ok (toInt32 b0 b1 b2 b3)
  | _ => .error .tooShort

/-- Embedding of `get_timestamp_byte`: the slice `byte_array[6:7]`. -/
def get_timestamp_byte (byte_array : List Nat) : List Nat :=
  (byte_array.drop 6).take 1

/-- Embedding of `get_data_array`: the slice `byte_array[10:24]`. -/
def get_data_array (byte_array : List Nat) : List Nat :=
  (byte_array.drop 10).take 14

/-- Consecutive two-byte groups decoded as little-endian signed 16-bit
integers, in stream order; a trailing odd byte produces nothing.  This is
the value part of `struct.iter_unpack('h', ...)`. -/
def unpack_h_pairs : List Nat → List Int
  | lo :: hi :: rest => toInt16 lo hi :: unpack_h_pairs rest
  | _ => []

/-- Embedding of `get_data`: `struct.iter_unpack('h', byte_array)` collected
into a list.  `struct.iter_unpack` raises `struct.error` when the buffer
size is not a multiple of the item size (2 bytes for code `h`). -/
def get_data (byte_array : List Nat) : Except StructError (List Int) :=
  if byte_array.length % 2 = 0 then .ok (unpack_h_pairs byte_array)
  else .error .notMultiple

/-- Decoded frame: timestamp plus channel samples. -/
structure Frame where
  timestamp : Int
  samples : List Int
deriving DecidableEq, Repr

/-- Full decoding of one candidate frame: the spec's `FrameDecoder.decode`,
composed from the source operations exactly as the source uses them —
`get_timestamp` on the frame, then `get_data` on `get_data_array` (the
payload slice `frame[10:24]`). -/
def decode (frame : List Nat) : Except StructError Frame :=
  match get_timestamp frame with
  | .error e => .error e
  | .ok t =>
    match get_data (get_data_array frame) with
    | .error e => .error e
    | .ok s => .ok ⟨t, s⟩

/-- Embedding of Python `bytes.split(sep)` for a one-byte separator, as used
by the entry point (`bytes.split(b'\x3a')`): maximal runs between delimiter
occurrences, empties preserved, and splitting an empty buffer yields one
empty part. -/
def pySplit (d : Nat) : List Nat → List (List Nat)
  | [] => [[]]
  | b :: rest =>
    match pySplit d rest with
    | [] => if b = d then [[], []] else [[b]]
    | c :: cs => if b = d then [] :: c :: cs else (b :: c) :: cs

/-- The inverse of splitting: concatenate parts with a single copy of the
delimiter between consecutive parts (Python `sep.join(parts)`). -/
def pyJoin (d : Nat) : List (List Nat) → List Nat
  | [] => []
  | [c] => c
  | c :: c2 :: cs => c ++ d :: pyJoin d (c2 :: cs)

/-- File system state used to model the OS collaborators of
`bytes_to_file` (`os.remove` and `open(path, 'wb')`): a store of files
keyed by path (paths are modelled as atoms), plus the sets of paths on
which removal or writing fails with a permission error.  Paths absent from
`files` make removal fail with a missing-file error. -/
structure FileSystem where
  files : List (Nat × List Nat)
  denyRemove : List Nat
  denyWrite : List Nat
deriving DecidableEq, Repr

/-- Operating-system file errors relevant to `bytes_to_file`:
Python `FileNotFoundError` and `PermissionError`. -/
inductive OSError where
  | fileNotFound : OSError
  | permissionDenied : OSError
deriving DecidableEq, Repr

/-- Model of Python `os.remove(path)`: fails with `FileNotFoundError` when
the path has no file, with `PermissionError` when removal is denied, and
otherwise deletes the file. -/
def osRemove (path : Nat) (fs : FileSystem) : Except OSError FileSystem :=
  match fs.files.lookup path with
  | none => .error .fileNotFound
  | some _ =>
    if path ∈ fs.denyRemove then .error .permissionDenied
    else .ok { fs with files := fs.files.filter (fun e => !(e.1 == path)) }

/-- Model of Python `open(path, 'wb')` followed by `write`: fails with
`PermissionError` when writing is denied, and otherwise stores the buffer
at the path (truncating any prior content). -/
def osWrite (path : Nat) (data : List Nat) (fs : FileSystem) : Except OSError FileSystem :=
  if path ∈ fs.denyWrite then .error .permissionDenied
  else .ok { fs with files := (path, data) :: fs.files.filter (fun e => !(e.1 == path)) }

/-- Embedding of `bytes_to_file`: `try: remove(path) / except: pass`, then
open for writing and write the buffer.  The bare `except:` suppresses every
removal error and keeps the state unchanged; only the write step's outcome
is returned to the caller. -/
def bytes_to_file (path : Nat) (byte_array : List Nat) (fs : FileSystem) :
    Except OSError FileSystem :=
  let fs1 :=
    match osRemove path fs with
    | .ok fsr => fsr
    | .error _ => fs
  osWrite path byte_array fs1

/-- Modelled from the spec: the CaptureSession `run` pipeline is absent
from `src` (the entry point only sketches fragments of it), so it is
modelled from the contract in spec section 4.3: split the acquired buffer
with the delimiter, decode every candidate, collect the successes in order
and the per-candidate decode errors in a side channel. -/
def runCapture (buf : List Nat) : List Frame × List StructError :=
  let cands := pySplit DELIM buf
  (cands.filterMap (fun c => (decode c).toOption),
   cands.filterMap (fun c =>
     match decode c with
     | .error e => some e
     | .ok _ => none))

/-- Concrete 20-byte frame of the spec scenario: six zero bytes, the
little-endian 32-bit encoding of 1234, four zero bytes, then the
little-endian 16-bit encodings of 1, -1, 7. -/
def scenarioFrame : List Nat :=
  [0, 0, 0, 0, 0, 0, 210, 4, 0, 0, 0, 0, 0, 0, 1, 0, 255, 255, 7, 0]

/-- Concrete file-system state with one file stored at path 0 whose
removal is denied with a permission error, while writing is allowed
everywhere. -/
def fsDeny : FileSystem := ⟨[(0, [1])], [0], []⟩

/-! Helper lemmas shared by the claim theorems. -/

theorem get_timestamp_eq (f : List Nat) :
    get_timestamp f =
      if f.length < 10 then .error .tooShort
      else .ok (toInt32 (f.getD 6 0) (f.getD 7 0) (f.getD 8 0) (f.getD 9 0)) := by
  rcases f with _|⟨b0,_|⟨b1,_|⟨b2,_|⟨b3,_|⟨b4,_|⟨b5,_|⟨b6,_|⟨b7,_|⟨b8,_|⟨b9,rest⟩⟩⟩⟩⟩⟩⟩⟩⟩⟩ <;>
    simp [get_timestamp]
  rw [if_neg (by omega)]

theorem unpack_h_pairs_length : ∀ l : List Nat, (unpack_h_pairs l).length = l.length / 2
  | [] => rfl
  | [a] => by simp [unpack_h_pairs]
  | _ :: _ :: t => by
    simp [unpack_h_pairs, unpack_h_pairs_length t]
    omega

theorem unpack_h_pairs_getD :
    ∀ (l : List Nat) (i : Nat), 2 * i + 1 < l.length →
      (unpack_h_pairs l).getD i 0 = toInt16 (l.getD (2 * i) 0) (l.getD (2 * i + 1) 0)
  | [], i, h => by simp at h
  | [a], i, h => by simp at h
  | a :: b :: t, 0, h => by simp [unpack_h_pairs]
  | a :: b :: t, i + 1, h => by
    have ih := unpack_h_pairs_getD t i (by simp at h ⊢; omega)
    have e1 : (a :: b :: t).getD (2 * (i + 1)) 0 = t.getD (2 * i) 0 := by
      have h1 : 2 * (i + 1) = 2 * i + 1 + 1 := by omega
      rw [h1, List.getD_cons_succ, List.getD_cons_succ]
    have e2 : (b :: t).getD (2 * (i + 1)) 0 = t.getD (2 * i + 1) 0 := by
      have h2 : 2 * (i + 1) = 2 * i + 1 + 1 := by omega
      rw [h2, List.getD_cons_succ]
    simp only [unpack_h_pairs, List.getD_cons_succ]
    rw [ih, e1, e2]

theorem getD_take_of_lt (l : List Nat) (n k : Nat) (h : k < n) :
    (l.take n).getD k 0 = l.getD k 0 := by
  simp [List.getD_eq_getElem?_getD, List.getElem?_take, h]

theorem getD_drop_add (l : List Nat) (n k : Nat) :
    (l.drop n).getD k 0 = l.getD (n + k) 0 := by
  simp [List.getD_eq_getElem?_getD, List.getElem?_drop]

theorem get_data_array_length (f : List Nat) :
    (get_data_array f).length = min 14 (f.length - 10) := by
  simp [get_data_array]

theorem decode_eq (f : List Nat) :
    decode f =
      if f.length < 10 then .error .tooShort
      else if (get_data_array f).length % 2 = 1 then .error .notMultiple
      else .ok ⟨toInt32 (f.getD 6 0) (f.getD 7 0) (f.getD 8 0) (f.getD 9 0),
                unpack_h_pairs (get_data_array f)⟩ := by
  unfold decode get_data
  rw [get_timestamp_eq]
  by_cases h10 : f.length < 10
  · simp [h10]
  · by_cases hpar : (get_data_array f).length % 2 = 0
    · have hne : ¬ ((get_data_array f).length % 2 = 1) := by omega
      simp [h10, hpar, hne]
    · have hye : (get_data_array f).length % 2 = 1 := by omega
      simp [h10, hpar, hye]

theorem pySplit_ne_nil (d : Nat) : ∀ b : List Nat, pySplit d b ≠ []
  | [] => by simp [pySplit]
  | x :: rest => by
    rcases hr : pySplit d rest with _ | ⟨c, cs⟩ <;>
      by_cases hx : x = d <;>
      simp [pySplit, hr, hx]

theorem pyJoin_pySplit (d : Nat) : ∀ b : List Nat, pyJoin d (pySplit d b) = b
  | [] => rfl
  | x :: rest => by
    have ih := pyJoin_pySplit d rest
    rcases hr : pySplit d rest with _ | ⟨c, cs⟩
    · exact absurd hr (pySplit_ne_nil d rest)
    · rw [hr] at ih
      by_cases hx : x = d
      · subst hx
        simp [pySplit, hr, pyJoin, ih]
      · rcases cs with _ | ⟨c2, cs2⟩
        · simp [pyJoin] at ih
          simp [pySplit, hr, hx, pyJoin, ih]
        · simp [pyJoin] at ih
          simp [pySplit, hr, hx, pyJoin, ih]

theorem pySplit_delim_not_mem (d : Nat) :
    ∀ b : List Nat, ∀ c ∈ pySplit d b, d ∉ c
  | [] => by
    intro c hc
    simp [pySplit] at hc
    simp [hc]
  | x :: rest => by
    intro c hc
    have ih := pySplit_delim_not_mem d rest
    rcases hr : pySplit d rest with _ | ⟨c0, cs⟩
    · exact absurd hr (pySplit_ne_nil d rest)
    · by_cases hx : x = d
      · subst hx
        simp [pySplit, hr] at hc
        rcases hc with hc | hc | hc
        · simp [hc]
        · exact hc ▸ ih c0 (by rw [hr]; exact List.mem_cons_self c0 cs)
        · exact ih c (by rw [hr]; exact List.mem_cons_of_mem c0 hc)
      · simp [pySplit, hr, hx] at hc
        rcases hc with hc | hc
        · subst hc
          have hd0 : d ∉ c0 := ih c0 (by rw [hr]; exact List.mem_cons_self c0 cs)
          simp [hd0]
          omega
        · exact ih c (by rw [hr]; exact List.mem_cons_of_mem c0 hc)

theorem pySplit_no_delim (d : Nat) :
    ∀ b : List Nat, b ≠ [] → d ∉ b → pySplit d b = [b]
  | [] => by intro h; exact absurd rfl h
  | x :: rest => by
    intro _ hd
    have hx : ¬ (x = d) := fun h => hd (by simp [h])
    by_cases hrest : rest = []
    · subst hrest
      simp [pySplit, hx]
    · have ih := pySplit_no_delim d rest hrest (fun hm => hd (List.mem_cons_of_mem x hm))
      simp [pySplit, ih, hx]

theorem osRemove_ok_denyWrite (p : Nat) (fs fsr : FileSystem)
    (h : osRemove p fs = .ok fsr) : fsr.denyWrite = fs.denyWrite := by
  unfold osRemove at h
  rcases hl : fs.files.lookup p with _ | v
  · rw [hl] at h; cases h
  · rw [hl] at h
    by_cases hdr : p ∈ fs.denyRemove
    · rw [if_pos hdr] at h; cases h
    · rw [if_neg hdr] at h
      injection h with h
      rw [← h]

/-! Claim theorems. -/

/-- Claim C1, counterexample: on the 13-byte all-zero frame the payload
slice has odd length 3 and decoding raises the iterative-unpacking struct
error instead of discarding the trailing byte, and on the 26-byte all-zero
frame the payload is capped at 14 bytes so only 7 samples are produced,
not `16 / 2 = 8` as the claim's sample-count law demands. -/
theorem C1_cex :
    decode (List.replicate 13 0) = .error .notMultiple ∧
    decode (List.replicate 26 0) = .ok ⟨0, [0, 0, 0, 0, 0, 0, 0]⟩ := by decide

/-- Claim C1 (amended): when sample decoding succeeds (frame length at
least 10 and even payload slice, i.e. even frame length or length at least
24), the samples are the consecutive 2-byte groups of the payload slice
`frame[10:24]` interpreted as native signed 16-bit integers in stream
order, and there are exactly `min 14 (L - 10) / 2` of them; an odd payload
slice instead raises a struct error rather than discarding the trailing
byte. -/
theorem C1_thm (f : List Nat) (h10 : 10 ≤ f.length)
    (heven : f.length % 2 = 0 ∨ 24 ≤ f.length) :
    ∃ fr, decode f = .ok fr ∧
      fr.samples.length = min 14 (f.length - 10) / 2 ∧
      ∀ i, 2 * i + 1 < min 14 (f.length - 10) →
        fr.samples.getD i 0 =
          toInt16 (f.getD (10 + 2 * i) 0) (f.getD (10 + 2 * i + 1) 0) := by
  have hlen := get_data_array_length f
  have hpar : ¬ ((get_data_array f).length % 2 = 1) := by omega
  refine ⟨⟨toInt32 (f.getD 6 0) (f.getD 7 0) (f.getD 8 0) (f.getD 9 0),
          unpack_h_pairs (get_data_array f)⟩, ?_, ?_, ?_⟩
  · rw [decode_eq, if_neg (by omega), if_neg hpar]
  · rw [show Frame.samples ⟨_, unpack_h_pairs (get_data_array f)⟩ =
        unpack_h_pairs (get_data_array f) from rfl]
    rw [unpack_h_pairs_length, hlen]
  · intro i hi
    rw [show Frame.samples ⟨_, unpack_h_pairs (get_data_array f)⟩ =
        unpack_h_pairs (get_data_array f) from rfl]
    rw [unpack_h_pairs_getD _ i (by omega)]
    have e1 : (get_data_array f).getD (2 * i) 0 = f.getD (10 + 2 * i) 0 := by
      unfold get_data_array
      rw [getD_take_of_lt _ _ _ (by omega), getD_drop_add]
    have e2 : (get_data_array f).getD (2 * i + 1) 0 = f.getD (10 + 2 * i + 1) 0 := by
      unfold get_data_array
      rw [getD_take_of_lt _ _ _ (by omega), getD_drop_add]
      rw [show 10 + (2 * i + 1) = 10 + 2 * i + 1 by omega]
    rw [e1, e2]

/-- Claim C1 witness: the amended claim instantiated on the 12-byte
all-zero frame, whose 2-byte payload decodes to one zero sample. -/
theorem C1_wit :
    10 ≤ (List.replicate 12 0 : List Nat).length ∧
    ((List.replicate 12 0 : List Nat).length % 2 = 0 ∨
      24 ≤ (List.replicate 12 0 : List Nat).length) ∧
    ∃ fr, decode (List.replicate 12 0) = .ok fr ∧
      fr.samples.length = min 14 ((List.replicate 12 0 : List Nat).length - 10) / 2 ∧
      ∀ i, 2 * i + 1 < min 14 ((List.replicate 12 0 : List Nat).length - 10) →
        fr.samples.getD i 0 =
          toInt16 ((List.replicate 12 0 : List Nat).getD (10 + 2 * i) 0)
            ((List.replicate 12 0 : List Nat).getD (10 + 2 * i + 1) 0) :=
  ⟨by decide, by decide, C1_thm (List.replicate 12 0) (by decide) (by decide)⟩

/-- Claim C2, counterexample: the 11-byte all-zero frame has length at
least 10, yet full decoding fails, and with the iterative-unpacking error
rather than the too-short error, so too-short is not the only failure and
length at least 10 does not guarantee success. -/
theorem C2_cex : decode (List.replicate 11 0) = .error .notMultiple := by decide

/-- Claim C2 (amended): full decoding fails with the too-short struct
error exactly when the frame length is below 10; it fails with the
iterative-unpacking struct error exactly when the length is at least 10,
odd and below 24; and it succeeds exactly when the length is at least 10
and either even or at least 24. -/
theorem C2_thm (f : List Nat) :
    (decode f = .error .tooShort ↔ f.length < 10) ∧
    (decode f = .error .notMultiple ↔
      10 ≤ f.length ∧ f.length % 2 = 1 ∧ f.length < 24) ∧
    ((∃ fr, decode f = .ok fr) ↔
      10 ≤ f.length ∧ (f.length % 2 = 0 ∨ 24 ≤ f.length)) := by
  have hlen := get_data_array_length f
  rw [decode_eq]
  by_cases h10 : f.length < 10
  · simp [h10]
  · by_cases hpar : (get_data_array f).length % 2 = 1
    · simp [h10, hpar]
      omega
    · simp [h10, hpar]
      omega

/-- Claim C3 (confirmed): decoding a candidate frame depends only on its
first `10 + payload_len` bytes, where `payload_len` is the length of the
payload slice `frame[10:24]` — truncating the frame there leaves the
decode result unchanged, for every frame length including 0, and the
embedding is a total function so no input can make it panic or read out
of bounds. -/
theorem C3_thm (f : List Nat) :
    decode (f.take (10 + (get_data_array f).length)) = decode f := by
  have hlen := get_data_array_length f
  by_cases h24 : f.length ≤ 24
  · have hle : f.length ≤ 10 + (get_data_array f).length := by omega
    rw [List.take_of_length_le hle]
  · have h14 : (get_data_array f).length = 14 := by omega
    rw [h14]
    norm_num
    have hlt : (f.take 24).length = 24 := by
      rw [List.length_take]
      omega
    have hgda : get_data_array (f.take 24) = get_data_array f := by
      unfold get_data_array
      rw [List.drop_take, List.take_take]
      norm_num
    rw [decode_eq, decode_eq f, hgda, hlt]
    rw [getD_take_of_lt _ _ _ (by norm_num), getD_take_of_lt _ _ _ (by norm_num),
        getD_take_of_lt _ _ _ (by norm_num), getD_take_of_lt _ _ _ (by norm_num)]
    rw [if_neg (by norm_num : ¬ (24 < 10)), if_neg (by omega : ¬ (f.length < 10))]

/-- Claim C4, counterexample: the scenario frame (six zero bytes, the
32-bit encoding of 1234, four zero bytes, then the 16-bit encodings of 1,
-1, 7) does not decode to samples `[1, -1, 7]` — its payload starts at
offset 10, so the four zero bytes belong to the payload. -/
theorem C4_cex : decode scenarioFrame ≠ .ok ⟨1234, [1, -1, 7]⟩ := by decide

/-- Claim C4 (amended): the scenario frame decodes to timestamp 1234 and
samples `[0, 0, 1, -1, 7]` — the payload is the 10 bytes from offset 10,
so the four zero bytes contribute two leading zero samples. -/
theorem C4_thm : decode scenarioFrame = .ok ⟨1234, [0, 0, 1, -1, 7]⟩ := by decide

/-- Claim C5 (confirmed): for every buffer and delimiter byte, joining the
split's candidate frames with a single copy of the delimiter between
consecutive candidates reconstructs the buffer exactly, and no candidate
contains the delimiter byte. -/
theorem C5_thm (d : Nat) (b : List Nat) :
    pyJoin d (pySplit d b) = b ∧ ∀ c ∈ pySplit d b, d ∉ c :=
  ⟨pyJoin_pySplit d b, pySplit_delim_not_mem d b⟩

/-- Claim C5 witness: the round trip and delimiter-freedom on the concrete
buffer `[1, 58, 2]` with delimiter 58. -/
theorem C5_wit :
    pyJoin 58 (pySplit 58 [1, 58, 2]) = [1, 58, 2] ∧
    ∀ c ∈ pySplit 58 [1, 58, 2], 58 ∉ c :=
  C5_thm 58 [1, 58, 2]

/-- Claim C6, counterexample: splitting the empty buffer yields one empty
candidate, not the empty sequence, and hence a capture run over an empty
acquisition reports one too-short decode error rather than none. -/
theorem C6_cex :
    pySplit DELIM [] = [[]] ∧
    runCapture [] = ([], [StructError.tooShort]) := by decide

/-- Claim C6 (amended): splitting the empty buffer yields exactly one
zero-length candidate (so a capture run over an empty acquisition yields
no frames and exactly one too-short error), and splitting a non-empty
buffer containing no delimiter occurrence yields exactly one candidate
equal to the whole buffer. -/
theorem C6_thm :
    pySplit DELIM [] = [[]] ∧
    runCapture [] = ([], [StructError.tooShort]) ∧
    ∀ b : List Nat, b ≠ [] → DELIM ∉ b → pySplit DELIM b = [b] :=
  ⟨by decide, by decide, fun b h1 h2 => pySplit_no_delim DELIM b h1 h2⟩

/-- Claim C6 witness: the no-delimiter part of the amended claim
instantiated on the one-byte buffer `[97]`. -/
theorem C6_wit :
    ([97] : List Nat) ≠ [] ∧ DELIM ∉ ([97] : List Nat) ∧
    pySplit DELIM [97] = [[97]] :=
  ⟨by decide, by decide, C6_thm.2.2 [97] (by decide) (by decide)⟩

/-- Claim C7, counterexample: timestamp extraction fails on frames of
length 6 and of length 9, although the claim says every frame of length at
least 6 succeeds — `struct.unpack_from('i', frame, 6)` needs four bytes
from offset 6, hence ten bytes in total. -/
theorem C7_cex :
    get_timestamp (List.replicate 6 0) = .error .tooShort ∧
    get_timestamp (List.replicate 9 0) = .error .tooShort := by decide

/-- Claim C7 (amended): timestamp-only extraction fails with the too-short
struct error exactly when the frame length is below 10, and for frames of
length at least 10 it returns the native signed 32-bit integer decoded
from the four bytes at offsets 6 to 9. -/
theorem C7_thm (f : List Nat) :
    get_timestamp f =
      if f.length < 10 then .error .tooShort
      else .ok (toInt32 (f.getD 6 0) (f.getD 7 0) (f.getD 8 0) (f.getD 9 0)) :=
  get_timestamp_eq f

/-- Claim C8, counterexample: on a state whose file at path 0 is
removal-denied, the removal step fails with a permission error, yet
`bytes_to_file` suppresses it (the bare `except:` ignores every removal
error, not only a missing-file error) and succeeds by overwriting. -/
theorem C8_cex :
    osRemove 0 fsDeny = .error .permissionDenied ∧
    bytes_to_file 0 [2] fsDeny = .ok ⟨[(0, [2])], [0], []⟩ := by decide

/-- Claim C8 (amended): `bytes_to_file` first attempts removal and ignores
every removal error (not only a missing-file error), then writes; the
write step's error is surfaced unchanged, and whenever the write is
permitted the call succeeds and stores the buffer at the path, regardless
of how removal fared. -/
theorem C8_thm (p : Nat) (data : List Nat) (fs : FileSystem) :
    (p ∈ fs.denyWrite → bytes_to_file p data fs = .error .permissionDenied) ∧
    (p ∉ fs.denyWrite →
      ∃ fsO, bytes_to_file p data fs = .ok fsO ∧
        fsO.files.lookup p = some data) := by
  constructor
  · intro hw
    unfold bytes_to_file
    rcases h : osRemove p fs with e | fsr
    · simp [h, osWrite, hw]
    · have hdw := osRemove_ok_denyWrite p fs fsr h
      simp [h, osWrite, hdw, hw]
  · intro hw
    unfold bytes_to_file
    rcases h : osRemove p fs with e | fsr
    · refine ⟨{ fs with files := (p, data) :: fs.files.filter (fun e => !(e.1 == p)) },
        ?_, ?_⟩
      · simp [h, osWrite, hw]
      · simp [List.lookup]
    · have hdw := osRemove_ok_denyWrite p fs fsr h
      refine ⟨{ fsr with files := (p, data) :: fsr.files.filter (fun e => !(e.1 == p)) },
        ?_, ?_⟩
      · simp [h, osWrite, hdw, hw]
      · simp [List.lookup]

/-- Claim C8 witness: the write-permitted branch of the amended claim on
the concrete denied-removal state, at a fresh path. -/
theorem C8_wit :
    (1 : Nat) ∉ fsDeny.denyWrite ∧
    ∃ fsO, bytes_to_file 1 [5] fsDeny = .ok fsO ∧
      fsO.files.lookup 1 = some [5] :=
  ⟨by decide, (C8_thm 1 [5] fsDeny).2 (by decide)⟩

/-- Claim C9 (confirmed): decoding is a deterministic pure function of the
frame's bytes — two runs of `decode` on the same candidate frame yield
identical results. -/
theorem C9_thm (f : List Nat) (r1 r2 : Except StructError Frame)
    (h1 : decode f = r1) (h2 : decode f = r2) : r1 = r2 := by
  rw [← h1, ← h2]

/-- Claim C9 witness: determinism instantiated on the empty frame, both
runs producing the too-short error. -/
theorem C9_wit :
    decode [] = .error .tooShort ∧
    (Except.error StructError.tooShort : Except StructError Frame) =
      Except.error StructError.tooShort :=
  ⟨by decide, C9_thm [] _ _ (by decide) (by decide)⟩

/-- Claim C10 (confirmed): sample extraction reads only the payload slice
`frame[10:24]` — any two frames whose slices agree produce identical
sample decodings regardless of bytes at offset 24 onward — and a
successful sample decoding holds at most 7 samples. -/
theorem C10_thm (f g : List Nat) :
    ((f.drop 10).take 14 = (g.drop 10).take 14 →
      get_data (get_data_array f) = get_data (get_data_array g)) ∧
    ∀ s, get_data (get_data_array f) = .ok s → s.length ≤ 7 := by
  constructor
  · intro h
    unfold get_data_array
    rw [h]
  · intro s hs
    unfold get_data at hs
    by_cases hp : (get_data_array f).length % 2 = 0
    · rw [if_pos hp] at hs
      injection hs with hs
      rw [← hs, unpack_h_pairs_length]
      have := get_data_array_length f
      omega
    · rw [if_neg hp] at hs
      cases hs

/-- Claim C10 witness: two all-zero frames of lengths 30 and 40 agree on
the payload slice and decode to the same 7 zero samples, which meet the
bound. -/
theorem C10_wit :
    get_data (get_data_array (List.replicate 30 0)) =
      get_data (get_data_array (List.replicate 40 0)) ∧
    ([0, 0, 0, 0, 0, 0, 0] : List Int).length ≤ 7 :=
  ⟨(C10_thm (List.replicate 30 0) (List.replicate 40 0)).1 (by decide),
   (C10_thm (List.replicate 30 0) (List.replicate 40 0)).2
     [0, 0, 0, 0, 0, 0, 0] (by decide)⟩

end IcebergTwist
